import Mathlib

/-!
Shallow embedding of the insights-results-smart-proxy server code
(src/services/redis.go) used by the aggregation-and-filtering pipeline:
the content filter and enricher, the rule-count computation, the
internal-rule permission check, the cluster resolver with its
aggregation-store fallback, the proxy error translation, the rule-group
configuration snapshot reader and the per-cluster overview computation.

External collaborators (the content repository lookup, the membership
service client and the HTTP calls to the aggregation store) are passed in
as explicit inputs describing the outcome of the corresponding call, so
that every function here is a pure, executable translation of the Go
control flow.
-/

namespace SmartProxy

/-- One evaluation result produced by the aggregation store for a cluster
(Go type `ctypes.RuleOnReport`, the spec's RawRuleHit): rule module
identifier, error-key identifier and the disabled flag. -/
structure RuleOnReport where
  module : String
  errorKey : String
  disabled : Bool
deriving DecidableEq, Repr

/-- Modelled from the spec: descriptive metadata for a (rule id, error key)
pair sourced from the content repository (the spec's RuleContent):
total-risk score, tags, the internal flag and the audience(OSD)-eligibility
attribute.  The content package is not part of the embedded source. -/
structure RuleContent where
  totalRisk : Nat
  tags : List String
  internal : Bool
  osdEligible : Bool
deriving DecidableEq, Repr

/-- Modelled from the spec: result of the content repository lookup
`contentFor(ruleID, errorKey)`, which distinguishes a timeout/unavailable
condition from a plain not-found. -/
inductive ContentLookupResult where
  | found (c : RuleContent)
  | notFound
  | timeout
deriving DecidableEq, Repr

/-- Error returned by the content package: either the
`RuleContentDirectoryTimeoutError` (content repository exceeded its time
budget) or the rule-content-not-found error. -/
inductive ContentError where
  | ruleContentDirectoryTimeout
  | notFound
deriving DecidableEq, Repr

/-- Join of a RawRuleHit and its RuleContent (Go type
`types.RuleWithContentResponse`, the spec's EnrichedRule). -/
structure RuleWithContentResponse where
  ruleID : String
  errorKey : String
  disabled : Bool
  internal : Bool
  totalRisk : Nat
  tags : List String
deriving DecidableEq, Repr

/-- Modelled from the spec: `content.FetchRuleContent(rule, OSDEligible)`
of the content package (not part of the embedded source).  It looks up
content by (module, error key); a lookup failure is reported through the
error component (with the timeout error distinguishable from not-found),
a content entry excluded by the audience-eligibility filter is reported
through the boolean `filtered` component, and otherwise the enriched rule
is produced, copying the hit's disabled flag and the content's internal
flag, risk and tags. -/
def FetchRuleContent (lookup : String → String → ContentLookupResult)
    (rule : RuleOnReport) (filterOSD : Bool) :
    Option RuleWithContentResponse × Bool × Option ContentError :=
  match lookup rule.module rule.errorKey with
  | ContentLookupResult.timeout => (none, false, some ContentError.ruleContentDirectoryTimeout)
  | ContentLookupResult.notFound => (none, false, some ContentError.notFound)
  | ContentLookupResult.found c =>
    if filterOSD && !c.osdEligible then
      (none, true, none)
    else
      (some { ruleID := rule.module, errorKey := rule.errorKey,
              disabled := rule.disabled, internal := c.internal,
              totalRisk := c.totalRisk, tags := c.tags }, false, none)

/-- Translation of `filterRulesInResponse` (src/services/redis.go,
lines 1261-1298).  Result components, in the Go return order:
the visible (ok) rules, the no-content count, the disabled count and the
content error.  The Go loop's early `return` on the timeout error keeps
the named return values accumulated so far, which the recursion mirrors
by wrapping the aborting element's result in the accumulation of the
earlier elements. -/
def filterRulesInResponse (lookup : String → String → ContentLookupResult) :
    List RuleOnReport → Bool → Bool →
    List RuleWithContentResponse × Nat × Nat × Option ContentError
  | [], _, _ => ([], 0, 0, none)
  | aggregatorRule :: rest, filterOSD, getDisabled =>
    if aggregatorRule.disabled && !getDisabled then
      let prev := filterRulesInResponse lookup rest filterOSD getDisabled
      (prev.1, prev.2.1, prev.2.2.1 + 1, prev.2.2.2)
    else
      match FetchRuleContent lookup aggregatorRule filterOSD with
      | (_, filtered, some ContentError.ruleContentDirectoryTimeout) =>
        ([], (if filtered then 0 else 1), 0, some ContentError.ruleContentDirectoryTimeout)
      | (_, filtered, some ContentError.notFound) =>
        let prev := filterRulesInResponse lookup rest filterOSD getDisabled
        (prev.1, (if filtered then 0 else 1) + prev.2.1, prev.2.2.1, prev.2.2.2)
      | (_, true, none) =>
        filterRulesInResponse lookup rest filterOSD getDisabled
      | (some rule, false, none) =>
        let prev := filterRulesInResponse lookup rest filterOSD getDisabled
        (rule :: prev.1, prev.2.1, prev.2.2.1, prev.2.2.2)
      | (none, false, none) =>
        -- unreachable for the modelled FetchRuleContent (Go would dereference a nil pointer)
        filterRulesInResponse lookup rest filterOSD getDisabled

/-- Translation of `getRuleCount` (src/services/redis.go, lines 985-1000).
The clusterID argument is used by the Go code only for logging. -/
def getRuleCount (visibleRules : List RuleWithContentResponse)
    (noContentRulesCnt disabledRulesCnt : Nat) (clusterID : String) : Nat :=
  let _ := clusterID
  let totalRuleCnt := visibleRules.length + noContentRulesCnt
  if visibleRules.length = 0 ∧ noContentRulesCnt > 0 ∧ disabledRulesCnt = 0 then 0
  else totalRuleCnt

/-- Report payload assembled by the report endpoint (Go type
`types.SmartProxyReport`, keeping only the total count and the data). -/
structure SmartProxyReport where
  count : Nat
  data : List RuleWithContentResponse
deriving DecidableEq, Repr

/-- Outcome of the report endpoint after the aggregator report was
fetched: either an error response written by handleServerError, or the
OK response with the assembled report. -/
inductive ReportEndpointOutcome where
  | serverError (e : ContentError)
  | ok (report : SmartProxyReport)
deriving DecidableEq, Repr

/-- Translation of the filtering-and-response part of `reportEndpoint`
(src/services/redis.go, lines 921-965), starting after the aggregator
report was fetched successfully: filter the rules, return the timeout
error when the filter reported one, otherwise assemble and send the
report with the total count from getRuleCount. -/
def reportEndpoint (lookup : String → String → ContentLookupResult)
    (clusterID : String) (aggregatorReport : List RuleOnReport)
    (osdFlag includeDisabled : Bool) : ReportEndpointOutcome :=
  let res := filterRulesInResponse lookup aggregatorReport osdFlag includeDisabled
  match res.2.2.2 with
  | some ContentError.ruleContentDirectoryTimeout =>
    ReportEndpointOutcome.serverError ContentError.ruleContentDirectoryTimeout
  | _ =>
    ReportEndpointOutcome.ok
      { count := getRuleCount res.1 res.2.1 res.2.2.1 clusterID, data := res.1 }

/-- Error value produced by the internal-rule permission check: either the
auth-token extraction failed, or the organization is not allowed. -/
inductive InternalRuleCheckError where
  | tokenError
  | authenticationError
deriving DecidableEq, Repr

/-- Server configuration fields consumed by the embedded handlers
(Go type `server.Configuration`). -/
structure ServerConfig where
  enableInternalRulesOrganizations : Bool
  auth : Bool
  internalRulesOrganizations : List Nat
  useOrgClustersFallback : Bool
deriving DecidableEq, Repr

/-- Translation of `checkInternalRulePermissions` (src/services/redis.go,
lines 1123-1147).  `tokenOrgID` is the outcome of GetAuthToken: none when
token extraction fails, otherwise the caller's organization ID. -/
def checkInternalRulePermissions (cfg : ServerConfig) (tokenOrgID : Option Nat) :
    Option InternalRuleCheckError :=
  if !cfg.enableInternalRulesOrganizations || !cfg.auth then none
  else
    match tokenOrgID with
    | none => some InternalRuleCheckError.tokenError
    | some requestOrgID =>
      if cfg.internalRulesOrganizations.contains requestOrgID then none
      else some InternalRuleCheckError.authenticationError

/-- Outcome of the single-rule endpoint after the aggregator rule was
fetched successfully. -/
inductive SingleRuleOutcome where
  | notFound
  | serverError
  | tokenError
  | authenticationError
  | ok (rule : RuleWithContentResponse)
deriving DecidableEq, Repr

/-- Translation of the content-and-permission part of `singleRuleEndpoint`
(src/services/redis.go, lines 1068-1102), starting after the aggregator
rule was fetched: fetch the rule content (timeout gives a server error,
any other content error or the audience filter gives not-found), then for
a rule flagged internal run checkInternalRulePermissions. -/
def singleRuleEndpoint (lookup : String → String → ContentLookupResult)
    (cfg : ServerConfig) (tokenOrgID : Option Nat)
    (aggregatorResponse : RuleOnReport) (osdFlag : Bool) : SingleRuleOutcome :=
  match FetchRuleContent lookup aggregatorResponse osdFlag with
  | (_, _, some ContentError.ruleContentDirectoryTimeout) => SingleRuleOutcome.serverError
  | (_, _, some ContentError.notFound) => SingleRuleOutcome.notFound
  | (_, true, none) => SingleRuleOutcome.notFound
  | (none, false, none) =>
    -- unreachable for the modelled FetchRuleContent (Go would dereference a nil pointer)
    SingleRuleOutcome.notFound
  | (some rule, false, none) =>
    if rule.internal then
      match checkInternalRulePermissions cfg tokenOrgID with
      | some InternalRuleCheckError.tokenError => SingleRuleOutcome.tokenError
      | some InternalRuleCheckError.authenticationError => SingleRuleOutcome.authenticationError
      | none => SingleRuleOutcome.ok rule
    else SingleRuleOutcome.ok rule

/-- A cluster record (Go type `types.ClusterInfo`); the Go zero value has
an empty ID and an empty display name. -/
structure ClusterInfo where
  id : String
  displayName : String
deriving DecidableEq, Repr

/-- Error values surfaced by the cluster resolver. -/
inductive ClusterResolveError where
  | aggregatorServiceUnavailable
  | transportError
  | decodeError
  | amsClientNotInitialized
deriving DecidableEq, Repr

/-- Outcome of the HTTP GET against the aggregation store's
per-organization cluster listing endpoint, as consumed by
getClusterIDsFromAggregator: a transport failure (a url.Error or another
error), or a received response whose body decodes to a cluster list with
a possible decode error. -/
inductive ClusterListFetch where
  | transportURLError
  | transportOtherError
  | decoded (clusters : List String) (decodeFailed : Bool)
deriving DecidableEq, Repr

/-- Translation of `getClusterIDsFromAggregator` (src/services/redis.go,
lines 521-547).  The Go function returns the decoded cluster list
together with the decode error, mirrored here by the pair. -/
def getClusterIDsFromAggregator (fetch : ClusterListFetch) :
    List String × Option ClusterResolveError :=
  match fetch with
  | ClusterListFetch.transportURLError =>
    ([], some ClusterResolveError.aggregatorServiceUnavailable)
  | ClusterListFetch.transportOtherError =>
    ([], some ClusterResolveError.transportError)
  | ClusterListFetch.decoded clusters decodeFailed =>
    (clusters, if decodeFailed then some ClusterResolveError.decodeError else none)

/-- Translation of `readClusterIDsForOrgID` (src/services/redis.go,
lines 450-474).  `amsClient` is none when no membership-service client is
configured, otherwise the outcome of GetClustersForOrganization (reduced
to the cluster names).  The boolean in the result records whether the
aggregation-store fallback was queried. -/
def readClusterIDsForOrgID (cfg : ServerConfig)
    (amsClient : Option (Except Unit (List String)))
    (fetch : ClusterListFetch) :
    (List String × Option ClusterResolveError) × Bool :=
  match amsClient with
  | some (Except.ok clusterNames) => ((clusterNames, none), false)
  | _ =>
    if !cfg.useOrgClustersFallback then
      (([], some ClusterResolveError.amsClientNotInitialized), false)
    else
      (getClusterIDsFromAggregator fetch, true)

/-- Translation of `readClustersForOrgID` (src/services/redis.go,
lines 477-518).  `amsClient` is none when no membership-service client is
configured, otherwise the outcome of GetClustersForOrganization (the
cluster-info list and the display-name map, the latter as an association
list).  The fallback path reproduces the Go sequence exactly: a slice
made with `make([]types.ClusterInfo, len(clusterIDs))` (zero-valued
records) to which one record per cluster ID is appended, and a map
assigning every cluster ID the empty display name.  The boolean in the
result records whether the aggregation-store fallback was queried. -/
def readClustersForOrgID (cfg : ServerConfig)
    (amsClient : Option (Except Unit (List ClusterInfo × List (String × String))))
    (fetch : ClusterListFetch) :
    (List ClusterInfo × List (String × String) × Option ClusterResolveError) × Bool :=
  match amsClient with
  | some (Except.ok res) => ((res.1, res.2, none), false)
  | _ =>
    if !cfg.useOrgClustersFallback then
      (([], [], some ClusterResolveError.amsClientNotInitialized), false)
    else
      match getClusterIDsFromAggregator fetch with
      | (_, some e) => (([], [], some e), true)
      | (clusterIDs, none) =>
        let clusterInfo :=
          List.replicate clusterIDs.length { id := "", displayName := "" } ++
            clusterIDs.map (fun c => { id := c, displayName := "" })
        let clusterNamesMap := clusterIDs.map (fun c => (c, ""))
        ((clusterInfo, clusterNamesMap, none), true)

/-- Services configuration consumed by the proxy error translation
(Go type `services.Configuration`). -/
structure ServicesConfig where
  aggregatorBaseEndpoint : String
  contentBaseEndpoint : String
deriving DecidableEq, Repr

/-- Classification of an error reaching the proxy handler: a
transport-level `*url.Error` or any other error. -/
inductive ProxyError where
  | urlError
  | otherError
deriving DecidableEq, Repr

/-- Error that handleServerError receives from the proxy handler: one of
the two named service-unavailable errors, or the original error passed
through (rendered as a generic internal error). -/
inductive HandledError where
  | aggregatorServiceUnavailable
  | contentServiceUnavailable
  | generic (e : ProxyError)
deriving DecidableEq, Repr

/-- Translation of `evaluateProxyError` (src/services/redis.go,
lines 391-406): a url.Error is mapped to the service-unavailable error of
the configured base endpoint that was targeted, with everything else
handled as the original error. -/
def evaluateProxyError (sc : ServicesConfig) (err : ProxyError) (baseURL : String) :
    HandledError :=
  match err with
  | ProxyError.urlError =>
    if baseURL = sc.aggregatorBaseEndpoint then HandledError.aggregatorServiceUnavailable
    else if baseURL = sc.contentBaseEndpoint then HandledError.contentServiceUnavailable
    else HandledError.generic ProxyError.urlError
  | ProxyError.otherError => HandledError.generic ProxyError.otherError

/-- Outcome of one invocation of the handler built by proxyTo: an error
response written through handleServerError, or the proxied status code
and body streamed back. -/
inductive ProxyOutcome where
  | errorResponse (e : HandledError)
  | success (statusCode : Nat) (body : String)
deriving DecidableEq, Repr

/-- Translation of the handler built by `proxyTo` (src/services/redis.go,
lines 347-389).  The fallible steps are passed in as inputs, in the order
the Go code runs them: the request-modifier chain, composeEndpoint, and
sendRequest (client.Do, the response-modifier chain and the body read,
whose first error is returned), and finally responses.Send.  A modifier
or compose or send-to-client error goes to handleServerError unchanged;
a sendRequest error goes through evaluateProxyError. -/
def proxyTo (sc : ServicesConfig) (baseURL : String)
    (modifyRequestResult : Option ProxyError)
    (composeEndpointResult : Option ProxyError)
    (sendRequestResult : Except ProxyError (Nat × String))
    (sendResponseResult : Option ProxyError) : ProxyOutcome :=
  match modifyRequestResult with
  | some e => ProxyOutcome.errorResponse (HandledError.generic e)
  | none =>
    match composeEndpointResult with
    | some e => ProxyOutcome.errorResponse (HandledError.generic e)
    | none =>
      match sendRequestResult with
      | Except.error e => ProxyOutcome.errorResponse (evaluateProxyError sc e baseURL)
      | Except.ok (statusCode, body) =>
        match sendResponseResult with
        | some e => ProxyOutcome.errorResponse (HandledError.generic e)
        | none => ProxyOutcome.success statusCode body

/-- State of one Go channel at the moment getGroupsConfig reads it: the
channel is closed (a receive yields the zero value immediately), open and
empty (a plain receive blocks, a select with default takes the default),
or open with a buffered value ready. -/
inductive ChanState (α : Type) where
  | closed
  | empty
  | ready (val : α)
deriving DecidableEq, Repr

/-- One rule group of the rule-group configuration published by the
background refresher (Go type `groups.Group`, fields abridged). -/
structure Group where
  name : String
  description : String
deriving DecidableEq, Repr

/-- Error carried by the refresher's error channel or produced by
getGroupsConfig itself. -/
inductive GroupsError where
  | ruleContentDirectoryTimeout
  | contentServiceError
  | noGroupsRetrieved
deriving DecidableEq, Repr

/-- Translation of `getGroupsConfig` (src/services/redis.go,
lines 1171-1209) over the states of the three channels.  The result is
none when the Go code would block on a plain receive from an open, empty
channel; otherwise it is the returned (ruleGroups, err) pair.  The groups
channel carries `Option (List Group)` because a Go `[]groups.Group`
channel value can be nil, which the code turns into the
no-groups-retrieved error. -/
def getGroupsConfig (errorFoundChannel : ChanState Bool)
    (errorChannel : ChanState GroupsError)
    (groupsChannel : ChanState (Option (List Group))) :
    Option (List Group × Option GroupsError) :=
  match errorFoundChannel with
  | ChanState.closed => some ([], none)
  | ChanState.empty => some ([], none)
  | ChanState.ready errorFound =>
    if errorFound then
      match errorChannel with
      | ChanState.empty => none
      | ChanState.closed => some ([], none)
      | ChanState.ready e => some ([], some e)
    else
      match groupsChannel with
      | ChanState.empty => none
      | ChanState.closed => some ([], some GroupsError.noGroupsRetrieved)
      | ChanState.ready none => some ([], some GroupsError.noGroupsRetrieved)
      | ChanState.ready (some groupsConfig) => some (groupsConfig, none)

/-- Modelled from the spec: the background refresher (not part of the
embedded source) publishes the rule-group configuration or an error onto
the channels consumed by getGroupsConfig.  After a publish either no
refresh has completed yet (flag channel empty), or the flag channel holds
true and the error channel holds the error, or the flag channel holds
false and the groups channel holds the (non-nil) configuration. -/
def refresherPublished (errorFoundChannel : ChanState Bool)
    (errorChannel : ChanState GroupsError)
    (groupsChannel : ChanState (Option (List Group))) : Prop :=
  errorFoundChannel = ChanState.empty
  ∨ (∃ e, errorFoundChannel = ChanState.ready true ∧ errorChannel = ChanState.ready e)
  ∨ (∃ gs, errorFoundChannel = ChanState.ready false
        ∧ groupsChannel = ChanState.ready (some gs))

/-- Decoded aggregator report for one cluster (Go type
`ctypes.ReportResponse`, keeping the meta count and the hits). -/
structure ReportResponse where
  metaCount : Nat
  report : List RuleOnReport
deriving DecidableEq, Repr

/-- Outcome of the HTTP interaction performed by
readAggregatorReportForClusterID: a transport failure (url.Error or
other), a body-read failure, or a received response with its status code
and the result of decoding its body. -/
inductive AggregatorReportFetch where
  | transportURLError
  | transportOtherError
  | bodyReadError
  | response (statusCode : Nat) (decoded : Option ReportResponse)
deriving DecidableEq, Repr

/-- Translation of `readAggregatorReportForClusterID`
(src/services/redis.go, lines 552-601), reduced to its returned pair: the
report and the success flag.  Every failure (transport, body read, non-OK
upstream status, decode failure) writes an error or pass-through response
and returns (nil, false). -/
def readAggregatorReportForClusterID (fetch : AggregatorReportFetch) :
    Option ReportResponse × Bool :=
  match fetch with
  | AggregatorReportFetch.transportURLError => (none, false)
  | AggregatorReportFetch.transportOtherError => (none, false)
  | AggregatorReportFetch.bodyReadError => (none, false)
  | AggregatorReportFetch.response statusCode decoded =>
    if statusCode ≠ 200 then (none, false)
    else
      match decoded with
      | none => (none, false)
      | some r => (some r, true)

/-- Per-cluster overview value (Go type `types.ClusterOverview`). -/
structure ClusterOverview where
  totalRisksHit : List Nat
  tagsHit : List String
deriving DecidableEq, Repr

/-- Accumulating loop of getOverviewPerCluster over the cluster's hits:
a content-lookup timeout aborts with that error, a not-found hit is
skipped, and otherwise the content's total risk and tags are appended. -/
def overviewAccumulate (lookup : String → String → ContentLookupResult) :
    List RuleOnReport → List Nat → List String →
    Option ClusterOverview × Option ContentError
  | [], totalRisks, tags => (some { totalRisksHit := totalRisks, tagsHit := tags }, none)
  | rule :: rest, totalRisks, tags =>
    match lookup rule.module rule.errorKey with
    | ContentLookupResult.timeout => (none, some ContentError.ruleContentDirectoryTimeout)
    | ContentLookupResult.notFound => overviewAccumulate lookup rest totalRisks tags
    | ContentLookupResult.found c =>
      overviewAccumulate lookup rest (totalRisks ++ [c.totalRisk]) (tags ++ c.tags)

/-- Translation of `getOverviewPerCluster` (src/services/redis.go,
lines 1211-1255): an unsuccessful aggregator fetch or a report with zero
hits yields (nil, nil); otherwise the hits are accumulated through the
content lookup. -/
def getOverviewPerCluster (lookup : String → String → ContentLookupResult)
    (fetch : AggregatorReportFetch) :
    Option ClusterOverview × Option ContentError :=
  match readAggregatorReportForClusterID fetch with
  | (_, false) => (none, none)
  | (none, true) =>
    -- unreachable: readAggregatorReportForClusterID returns true only with a report
    (none, none)
  | (some aggregatorResponse, true) =>
    if aggregatorResponse.metaCount = 0 then (none, none)
    else overviewAccumulate lookup aggregatorResponse.report [] []

/-- Concrete content lookup whose only entry is audience-ineligible
content for the hit (module A, error key K1). -/
def c1Lookup : String → String → ContentLookupResult := fun m k =>
  if m = "A" ∧ k = "K1" then
    ContentLookupResult.found { totalRisk := 2, tags := ["t1"], internal := false, osdEligible := false }
  else ContentLookupResult.notFound

/-- Concrete enabled, non-disabled hit for module A and error key K1. -/
def c1Hit : RuleOnReport := { module := "A", errorKey := "K1", disabled := false }

example :
    filterRulesInResponse c1Lookup [c1Hit] true false = ([], 0, 0, none) := by decide

example :
    filterRulesInResponse c1Lookup [c1Hit] false false =
      ([{ ruleID := "A", errorKey := "K1", disabled := false, internal := false,
          totalRisk := 2, tags := ["t1"] }], 0, 0, none) := by decide

example :
    filterRulesInResponse c1Lookup [{ module := "B", errorKey := "K2", disabled := false }]
      false false = ([], 1, 0, none) := by decide

example :
    filterRulesInResponse c1Lookup [{ module := "A", errorKey := "K1", disabled := true }]
      false false = ([], 0, 1, none) := by decide

/-- Number of input hits that reach the content lookup and are excluded
by the audience-eligibility filter; the Go loop drops these with a bare
continue, counting them in no bucket. -/
def osdFilteredCnt (lookup : String → String → ContentLookupResult)
    (report : List RuleOnReport) (filterOSD getDisabled : Bool) : Nat :=
  report.countP (fun r =>
    !(r.disabled && !getDisabled) && (FetchRuleContent lookup r filterOSD).2.1)

/-- C1 counterexample: with the audience-eligibility flag set and a single
enabled hit whose content exists but is not audience-eligible,
filterRulesInResponse classifies the hit into no bucket, so the visible
count plus the no-content count plus the disabled count is 0 while the
input list has length 1. -/
theorem filter_counts_not_partition :
    ¬ ((filterRulesInResponse c1Lookup [c1Hit] true false).1.length
        + (filterRulesInResponse c1Lookup [c1Hit] true false).2.1
        + (filterRulesInResponse c1Lookup [c1Hit] true false).2.2.1
        = ([c1Hit] : List RuleOnReport).length) := by decide

/-- Unfolding lemma: the audience-filtered count of a cons is the count of
the tail plus the contribution of the head. -/
theorem osdFilteredCnt_cons (lookup : String → String → ContentLookupResult)
    (r : RuleOnReport) (rest : List RuleOnReport) (filterOSD getDisabled : Bool) :
    osdFilteredCnt lookup (r :: rest) filterOSD getDisabled
      = osdFilteredCnt lookup rest filterOSD getDisabled
        + (if !(r.disabled && !getDisabled) && (FetchRuleContent lookup r filterOSD).2.1
           then 1 else 0) := by
  simp [osdFilteredCnt, List.countP_cons]

/-- C1 (amended): for every filtering call that returns no error, the
number of visible rules plus the no-content count plus the disabled count
plus the number of hits dropped by the audience-eligibility filter equals
the length of the input list; in particular the three reported buckets
partition the input exactly when no hit is dropped by the audience
filter. -/
theorem filter_counts_partition_with_osd (lookup : String → String → ContentLookupResult)
    (report : List RuleOnReport) (filterOSD getDisabled : Bool)
    (h : (filterRulesInResponse lookup report filterOSD getDisabled).2.2.2 = none) :
    (filterRulesInResponse lookup report filterOSD getDisabled).1.length
      + (filterRulesInResponse lookup report filterOSD getDisabled).2.1
      + (filterRulesInResponse lookup report filterOSD getDisabled).2.2.1
      + osdFilteredCnt lookup report filterOSD getDisabled
      = report.length := by
  induction report with
  | nil => simp [filterRulesInResponse, osdFilteredCnt]
  | cons r rest ih =>
    rw [osdFilteredCnt_cons]
    cases hd : (r.disabled && !getDisabled) with
    | true =>
      have h2 : (filterRulesInResponse lookup rest filterOSD getDisabled).2.2.2 = none := by
        simpa [filterRulesInResponse, hd] using h
      have ih2 := ih h2
      simp [filterRulesInResponse, hd]
      omega
    | false =>
      cases hl : lookup r.module r.errorKey with
      | timeout =>
        exfalso
        simp [filterRulesInResponse, hd, FetchRuleContent, hl] at h
      | notFound =>
        have h2 : (filterRulesInResponse lookup rest filterOSD getDisabled).2.2.2 = none := by
          simpa [filterRulesInResponse, hd, FetchRuleContent, hl] using h
        have ih2 := ih h2
        simp [filterRulesInResponse, hd, FetchRuleContent, hl]
        omega
      | found c =>
        cases ho : (filterOSD && !c.osdEligible) with
        | true =>
          have h2 : (filterRulesInResponse lookup rest filterOSD getDisabled).2.2.2 = none := by
            simpa [filterRulesInResponse, hd, FetchRuleContent, hl, ho] using h
          have ih2 := ih h2
          simp [filterRulesInResponse, hd, FetchRuleContent, hl, ho]
          omega
        | false =>
          have h2 : (filterRulesInResponse lookup rest filterOSD getDisabled).2.2.2 = none := by
            simpa [filterRulesInResponse, hd, FetchRuleContent, hl, ho] using h
          have ih2 := ih h2
          simp [filterRulesInResponse, hd, FetchRuleContent, hl, ho]
          omega

/-- C1 witness: the amended partition equation evaluated on the concrete
one-element input whose hit is dropped by the audience filter. -/
theorem filter_counts_partition_with_osd_witness :
    (filterRulesInResponse c1Lookup [c1Hit] true false).1.length
      + (filterRulesInResponse c1Lookup [c1Hit] true false).2.1
      + (filterRulesInResponse c1Lookup [c1Hit] true false).2.2.1
      + osdFilteredCnt c1Lookup [c1Hit] true false
      = ([c1Hit] : List RuleOnReport).length :=
  filter_counts_partition_with_osd c1Lookup [c1Hit] true false (by decide)

/-- C3: the total rule count reported for the response is the visible
count plus the no-content count, except that it is forced to zero when
the visible count is zero, the no-content count is positive and the
disabled count is zero; whenever the disabled count is positive the
override does not apply. -/
theorem getRuleCount_override (visibleRules : List RuleWithContentResponse)
    (noContentRulesCnt disabledRulesCnt : Nat) (clusterID : String) :
    (¬ (visibleRules.length = 0 ∧ 0 < noContentRulesCnt ∧ disabledRulesCnt = 0) →
      getRuleCount visibleRules noContentRulesCnt disabledRulesCnt clusterID
        = visibleRules.length + noContentRulesCnt)
  ∧ (visibleRules.length = 0 → 0 < noContentRulesCnt → disabledRulesCnt = 0 →
      getRuleCount visibleRules noContentRulesCnt disabledRulesCnt clusterID = 0)
  ∧ (0 < disabledRulesCnt →
      getRuleCount visibleRules noContentRulesCnt disabledRulesCnt clusterID
        = visibleRules.length + noContentRulesCnt) := by
  refine ⟨?_, ?_, ?_⟩ <;> intros <;> simp only [getRuleCount] <;> split <;> omega

/-- C3 witness: the override applies for (visible, noContent, disabled) =
(0, 1, 0) and does not apply for (0, 1, 1). -/
theorem getRuleCount_override_witness :
    getRuleCount [] 1 0 "cluster-1" = 0 ∧ getRuleCount [] 1 1 "cluster-1" = 1 := by
  constructor
  · exact (getRuleCount_override [] 1 0 "cluster-1").2.1 rfl (by decide) rfl
  · exact (getRuleCount_override [] 1 1 "cluster-1").2.2 (by decide)

/-- Helper: if some hit that is actually looked up (not skipped by the
disabled filter) times out, the filter returns the timeout error. -/
theorem filter_timeout_err (lookup : String → String → ContentLookupResult)
    (report : List RuleOnReport) (filterOSD getDisabled : Bool)
    (h : ∃ r ∈ report, (r.disabled = false ∨ getDisabled = true)
          ∧ lookup r.module r.errorKey = ContentLookupResult.timeout) :
    (filterRulesInResponse lookup report filterOSD getDisabled).2.2.2
      = some ContentError.ruleContentDirectoryTimeout := by
  induction report with
  | nil => simp at h
  | cons r rest ih =>
    obtain ⟨w, hw, hcond, htime⟩ := h
    rcases List.mem_cons.mp hw with rfl | hwrest
    · have hd : (w.disabled && !getDisabled) = false := by
        rcases hcond with hc | hc <;> simp [hc]
      simp [filterRulesInResponse, hd, FetchRuleContent, htime]
    · have ihe := ih ⟨w, hwrest, hcond, htime⟩
      cases hd : (r.disabled && !getDisabled) with
      | true => simpa [filterRulesInResponse, hd] using ihe
      | false =>
        cases hl : lookup r.module r.errorKey with
        | timeout => simp [filterRulesInResponse, hd, FetchRuleContent, hl]
        | notFound => simpa [filterRulesInResponse, hd, FetchRuleContent, hl] using ihe
        | found c =>
          cases ho : (filterOSD && !c.osdEligible) with
          | true => simpa [filterRulesInResponse, hd, FetchRuleContent, hl, ho] using ihe
          | false => simpa [filterRulesInResponse, hd, FetchRuleContent, hl, ho] using ihe

/-- C4: when the content lookup times out at any hit that the filter
actually looks up, filterRulesInResponse returns the timeout error and
the report endpoint answers with that error response, never with a
success response carrying a partially filtered rule list. -/
theorem filter_timeout_aborts (lookup : String → String → ContentLookupResult)
    (clusterID : String) (report : List RuleOnReport) (filterOSD getDisabled : Bool)
    (h : ∃ r ∈ report, (r.disabled = false ∨ getDisabled = true)
          ∧ lookup r.module r.errorKey = ContentLookupResult.timeout) :
    (filterRulesInResponse lookup report filterOSD getDisabled).2.2.2
        = some ContentError.ruleContentDirectoryTimeout
  ∧ reportEndpoint lookup clusterID report filterOSD getDisabled
        = ReportEndpointOutcome.serverError ContentError.ruleContentDirectoryTimeout
  ∧ ∀ rep : SmartProxyReport,
      reportEndpoint lookup clusterID report filterOSD getDisabled
        ≠ ReportEndpointOutcome.ok rep := by
  have he := filter_timeout_err lookup report filterOSD getDisabled h
  refine ⟨he, ?_, ?_⟩
  · simp [reportEndpoint, he]
  · intro rep
    simp [reportEndpoint, he]

/-- Concrete content lookup that times out for the hit (module A, error
key K1) and reports not-found for every other key. -/
def c4Lookup : String → String → ContentLookupResult := fun m k =>
  if m = "A" ∧ k = "K1" then ContentLookupResult.timeout
  else ContentLookupResult.notFound

/-- Concrete hit list whose second hit times out. -/
def c4Hits : List RuleOnReport :=
  [{ module := "B", errorKey := "K0", disabled := false },
   { module := "A", errorKey := "K1", disabled := false }]

/-- C4 witness: the timeout abort evaluated on the concrete two-element
hit list with a mid-list timeout. -/
theorem filter_timeout_aborts_witness :
    (filterRulesInResponse c4Lookup c4Hits false false).2.2.2
        = some ContentError.ruleContentDirectoryTimeout
  ∧ reportEndpoint c4Lookup "cluster-1" c4Hits false false
        = ReportEndpointOutcome.serverError ContentError.ruleContentDirectoryTimeout := by
  have h := filter_timeout_aborts c4Lookup "cluster-1" c4Hits false false
    ⟨{ module := "A", errorKey := "K1", disabled := false }, by decide, by decide, by decide⟩
  exact ⟨h.1, h.2.1⟩

/-- Helper: with the disabled filter active (includeDisabled false), the
filter result is determined by the lookup's values at the non-disabled
hits alone, so the content of a disabled hit is never consulted. -/
theorem filter_lookup_agree (lookup lookup2 : String → String → ContentLookupResult)
    (report : List RuleOnReport) (filterOSD : Bool)
    (hagree : ∀ r ∈ report, r.disabled = false →
        lookup r.module r.errorKey = lookup2 r.module r.errorKey) :
    filterRulesInResponse lookup report filterOSD false
      = filterRulesInResponse lookup2 report filterOSD false := by
  induction report with
  | nil => rfl
  | cons r rest ih =>
    have hrest : ∀ x ∈ rest, x.disabled = false →
        lookup x.module x.errorKey = lookup2 x.module x.errorKey :=
      fun x hx => hagree x (List.mem_cons_of_mem r hx)
    have ihe := ih hrest
    cases hd : r.disabled with
    | true => simp [filterRulesInResponse, hd, ihe]
    | false =>
      have hr := hagree r (List.mem_cons_self r rest) hd
      simp [filterRulesInResponse, hd, FetchRuleContent, hr, ihe]

/-- Helper: with the disabled filter active, every rule in the visible
output has its disabled flag false. -/
theorem filter_visible_not_disabled (lookup : String → String → ContentLookupResult)
    (report : List RuleOnReport) (filterOSD : Bool) :
    ∀ r ∈ (filterRulesInResponse lookup report filterOSD false).1, r.disabled = false := by
  induction report with
  | nil => simp [filterRulesInResponse]
  | cons r rest ih =>
    cases hd : r.disabled with
    | true => simpa [filterRulesInResponse, hd] using ih
    | false =>
      cases hl : lookup r.module r.errorKey with
      | timeout => simp [filterRulesInResponse, hd, FetchRuleContent, hl]
      | notFound => simpa [filterRulesInResponse, hd, FetchRuleContent, hl] using ih
      | found c =>
        cases ho : (filterOSD && !c.osdEligible) with
        | true => simpa [filterRulesInResponse, hd, FetchRuleContent, hl, ho] using ih
        | false =>
          intro x hx
          simp [filterRulesInResponse, hd, FetchRuleContent, hl, ho] at hx
          rcases hx with hx | hx
          · subst hx
            simp [hd]
          · exact ih x hx

/-- Helper: with the disabled filter active and no error returned, the
disabled count equals the number of input hits whose disabled flag is
set. -/
theorem filter_disabled_count (lookup : String → String → ContentLookupResult)
    (report : List RuleOnReport) (filterOSD : Bool)
    (h : (filterRulesInResponse lookup report filterOSD false).2.2.2 = none) :
    (filterRulesInResponse lookup report filterOSD false).2.2.1
      = report.countP (fun r => r.disabled) := by
  induction report with
  | nil => simp [filterRulesInResponse]
  | cons r rest ih =>
    cases hd : r.disabled with
    | true =>
      have h2 : (filterRulesInResponse lookup rest filterOSD false).2.2.2 = none := by
        simpa [filterRulesInResponse, hd] using h
      have ih2 := ih h2
      simp [filterRulesInResponse, hd, List.countP_cons, ih2]
    | false =>
      cases hl : lookup r.module r.errorKey with
      | timeout =>
        exfalso
        simp [filterRulesInResponse, hd, FetchRuleContent, hl] at h
      | notFound =>
        have h2 : (filterRulesInResponse lookup rest filterOSD false).2.2.2 = none := by
          simpa [filterRulesInResponse, hd, FetchRuleContent, hl] using h
        have ih2 := ih h2
        simp [filterRulesInResponse, hd, FetchRuleContent, hl, List.countP_cons, ih2]
      | found c =>
        cases ho : (filterOSD && !c.osdEligible) with
        | true =>
          have h2 : (filterRulesInResponse lookup rest filterOSD false).2.2.2 = none := by
            simpa [filterRulesInResponse, hd, FetchRuleContent, hl, ho] using h
          have ih2 := ih h2
          simp [filterRulesInResponse, hd, FetchRuleContent, hl, ho, List.countP_cons, ih2]
        | false =>
          have h2 : (filterRulesInResponse lookup rest filterOSD false).2.2.2 = none := by
            simpa [filterRulesInResponse, hd, FetchRuleContent, hl, ho] using h
          have ih2 := ih h2
          simp [filterRulesInResponse, hd, FetchRuleContent, hl, ho, List.countP_cons, ih2]

/-- C9: with includeDisabled false, the filter result depends only on the
lookup's values at non-disabled hits (a disabled hit's content is never
looked up), the visible output contains zero hits whose disabled flag is
true, and (when no error is returned) every disabled hit is classified as
Disabled: the disabled count equals the number of disabled input hits. -/
theorem filter_excludes_disabled (lookup lookup2 : String → String → ContentLookupResult)
    (report : List RuleOnReport) (filterOSD : Bool)
    (hagree : ∀ r ∈ report, r.disabled = false →
        lookup r.module r.errorKey = lookup2 r.module r.errorKey) :
    filterRulesInResponse lookup report filterOSD false
      = filterRulesInResponse lookup2 report filterOSD false
  ∧ (∀ r ∈ (filterRulesInResponse lookup report filterOSD false).1, r.disabled = false)
  ∧ ((filterRulesInResponse lookup report filterOSD false).2.2.2 = none →
      (filterRulesInResponse lookup report filterOSD false).2.2.1
        = report.countP (fun r => r.disabled)) :=
  ⟨filter_lookup_agree lookup lookup2 report filterOSD hagree,
   filter_visible_not_disabled lookup report filterOSD,
   fun h => filter_disabled_count lookup report filterOSD h⟩

/-- Concrete hit list with one enabled and one disabled hit. -/
def c9Hits : List RuleOnReport :=
  [{ module := "A", errorKey := "K1", disabled := false },
   { module := "D", errorKey := "K2", disabled := true }]

/-- Concrete lookup with content for the enabled hit only. -/
def c9Lookup : String → String → ContentLookupResult := fun m k =>
  if m = "A" ∧ k = "K1" then
    ContentLookupResult.found { totalRisk := 1, tags := [], internal := false, osdEligible := true }
  else ContentLookupResult.notFound

/-- Concrete lookup agreeing with c9Lookup on the enabled hit but timing
out on the disabled hit's key. -/
def c9Lookup2 : String → String → ContentLookupResult := fun m k =>
  if m = "A" ∧ k = "K1" then
    ContentLookupResult.found { totalRisk := 1, tags := [], internal := false, osdEligible := true }
  else ContentLookupResult.timeout

/-- C9 witness: on the concrete two-hit list the filter result is
unchanged when the disabled hit's content changes, and the disabled count
is the number of disabled hits. -/
theorem filter_excludes_disabled_witness :
    filterRulesInResponse c9Lookup c9Hits false false
      = filterRulesInResponse c9Lookup2 c9Hits false false
  ∧ (filterRulesInResponse c9Lookup c9Hits false false).2.2.1
      = c9Hits.countP (fun r => r.disabled) := by
  have h := filter_excludes_disabled c9Lookup c9Lookup2 c9Hits false (by decide)
  exact ⟨h.1, h.2.2 (by decide)⟩

/-- Concrete content lookup whose only entry is internal content for the
hit (module A, error key K1). -/
def c2Lookup : String → String → ContentLookupResult := fun m k =>
  if m = "A" ∧ k = "K1" then
    ContentLookupResult.found { totalRisk := 3, tags := [], internal := true, osdEligible := true }
  else ContentLookupResult.notFound

/-- Concrete enabled hit for module A and error key K1. -/
def c2Hit : RuleOnReport := { module := "A", errorKey := "K1", disabled := false }

/-- The enriched internal rule produced for c2Hit. -/
def c2Rule : RuleWithContentResponse :=
  { ruleID := "A", errorKey := "K1", disabled := false, internal := true,
    totalRisk := 3, tags := [] }

/-- Concrete configuration with the internal-rules feature and auth
enabled and an allow-list containing only organization 42. -/
def c2Cfg : ServerConfig :=
  { enableInternalRulesOrganizations := true, auth := true,
    internalRulesOrganizations := [42], useOrgClustersFallback := false }

/-- C2 counterexample: the report endpoint's filtering pipeline takes no
organization, allow-list or feature-flag input at all, and it places the
internal-flagged rule in the visible output of the success response; so
an internal rule is returned as a visible rule to every caller,
allow-listed or not, feature enabled or not. -/
theorem internal_rule_served_in_report :
    reportEndpoint c2Lookup "cluster-1" [c2Hit] false false
      = ReportEndpointOutcome.ok { count := 1, data := [c2Rule] }
  ∧ c2Rule.internal = true := by decide

/-- C2 (amended): the internal-rule gate exists only in the single-rule
endpoint: there, when the internal-rules-organizations feature and auth
are both enabled and the caller's organization is not on the allow-list,
a rule flagged internal is never returned. -/
theorem internal_rule_gate_single_rule (lookup : String → String → ContentLookupResult)
    (cfg : ServerConfig) (orgID : Nat) (aggregatorResponse : RuleOnReport)
    (osdFlag : Bool) (r : RuleWithContentResponse)
    (hfeat : cfg.enableInternalRulesOrganizations = true)
    (hauth : cfg.auth = true)
    (horg : cfg.internalRulesOrganizations.contains orgID = false)
    (hint : r.internal = true) :
    singleRuleEndpoint lookup cfg (some orgID) aggregatorResponse osdFlag
      ≠ SingleRuleOutcome.ok r := by
  intro hok
  have hmem : orgID ∉ cfg.internalRulesOrganizations := by simpa using horg
  have hchk : checkInternalRulePermissions cfg (some orgID)
      = some InternalRuleCheckError.authenticationError := by
    simp [checkInternalRulePermissions, hfeat, hauth, hmem]
  cases hl : lookup aggregatorResponse.module aggregatorResponse.errorKey with
  | timeout => simp [singleRuleEndpoint, FetchRuleContent, hl] at hok
  | notFound => simp [singleRuleEndpoint, FetchRuleContent, hl] at hok
  | found c =>
    cases ho : (osdFlag && !c.osdEligible) with
    | true => simp [singleRuleEndpoint, FetchRuleContent, hl, ho] at hok
    | false =>
      cases hi : c.internal with
      | true => simp [singleRuleEndpoint, FetchRuleContent, hl, ho, hi, hchk] at hok
      | false =>
        simp [singleRuleEndpoint, FetchRuleContent, hl, ho, hi] at hok
        rw [← hok] at hint
        simp [hi] at hint

/-- C2 witness: with the feature and auth enabled and organization 7 not
on the allow-list [42], the single-rule endpoint does not return the
internal rule. -/
theorem internal_rule_gate_single_rule_witness :
    singleRuleEndpoint c2Lookup c2Cfg (some 7) c2Hit false ≠ SingleRuleOutcome.ok c2Rule :=
  internal_rule_gate_single_rule c2Lookup c2Cfg 7 c2Hit false c2Rule rfl rfl (by decide) rfl

/-- Concrete configuration with the aggregation-store fallback enabled. -/
def c5Cfg : ServerConfig :=
  { enableInternalRulesOrganizations := false, auth := false,
    internalRulesOrganizations := [], useOrgClustersFallback := true }

/-- C5: evaluation of readClustersForOrgID at the failing input.  With a
failing membership-service call, the fallback enabled and the aggregation
store returning the single cluster c1, the fallback path returns TWO
cluster records — a zero-valued record (empty ID, empty display name)
left over from the make-with-length allocation, plus the appended record
for c1 — instead of exactly one record per cluster; the display names are
all empty as claimed. -/
theorem fallback_cluster_records_duplicated :
    readClustersForOrgID c5Cfg (some (Except.error ()))
        (ClusterListFetch.decoded ["c1"] false)
      = (([{ id := "", displayName := "" }, { id := "c1", displayName := "" }],
          [("c1", "")], none), true)
  ∧ (readClustersForOrgID c5Cfg (some (Except.error ()))
        (ClusterListFetch.decoded ["c1"] false)).1.1.length ≠ 1 := by decide

/-- C6: dispatch of both cluster resolvers.  For readClusterIDsForOrgID
and for readClustersForOrgID alike: a successful membership-service call
is returned as-is and the aggregation-store fallback is not queried; a
failing (or unconfigured) membership-service client with the fallback
disabled yields the amsclient-not-initialized error without querying the
fallback; with the fallback enabled the resolver returns exactly the
aggregation-store path's result — for the records variant, the
aggregation-store error when the cluster-ID fetch failed, and otherwise
the synthesized records and empty display names for the fetched cluster
IDs. -/
theorem cluster_resolution_dispatch (cfg : ServerConfig)
    (amsFail : Option (Except Unit (List String)))
    (amsFail2 : Option (Except Unit (List ClusterInfo × List (String × String))))
    (fetch : ClusterListFetch)
    (hfail : ∀ cs, amsFail ≠ some (Except.ok cs))
    (hfail2 : ∀ res, amsFail2 ≠ some (Except.ok res)) :
    (∀ cs, readClusterIDsForOrgID cfg (some (Except.ok cs)) fetch = ((cs, none), false))
  ∧ (cfg.useOrgClustersFallback = false →
      readClusterIDsForOrgID cfg amsFail fetch
        = (([], some ClusterResolveError.amsClientNotInitialized), false))
  ∧ (cfg.useOrgClustersFallback = true →
      readClusterIDsForOrgID cfg amsFail fetch
        = (getClusterIDsFromAggregator fetch, true))
  ∧ (∀ res, readClustersForOrgID cfg (some (Except.ok res)) fetch
        = ((res.1, res.2, none), false))
  ∧ (cfg.useOrgClustersFallback = false →
      readClustersForOrgID cfg amsFail2 fetch
        = (([], [], some ClusterResolveError.amsClientNotInitialized), false))
  ∧ (cfg.useOrgClustersFallback = true → ∀ e,
      (getClusterIDsFromAggregator fetch).2 = some e →
        readClustersForOrgID cfg amsFail2 fetch = (([], [], some e), true))
  ∧ (cfg.useOrgClustersFallback = true →
      (getClusterIDsFromAggregator fetch).2 = none →
        readClustersForOrgID cfg amsFail2 fetch
          = ((List.replicate (getClusterIDsFromAggregator fetch).1.length
                { id := "", displayName := "" } ++
              (getClusterIDsFromAggregator fetch).1.map
                (fun c => { id := c, displayName := "" }),
             (getClusterIDsFromAggregator fetch).1.map (fun c => (c, "")), none), true)) := by
  refine ⟨fun cs => rfl, ?_, ?_, fun res => rfl, ?_, ?_, ?_⟩
  · intro hfb
    match amsFail, hfail with
    | none, _ => simp [readClusterIDsForOrgID, hfb]
    | some (Except.error e), _ => simp [readClusterIDsForOrgID, hfb]
    | some (Except.ok cs), hfail => exact absurd rfl (hfail cs)
  · intro hfb
    match amsFail, hfail with
    | none, _ => simp [readClusterIDsForOrgID, hfb]
    | some (Except.error e), _ => simp [readClusterIDsForOrgID, hfb]
    | some (Except.ok cs), hfail => exact absurd rfl (hfail cs)
  · intro hfb
    match amsFail2, hfail2 with
    | none, _ => simp [readClustersForOrgID, hfb]
    | some (Except.error e), _ => simp [readClustersForOrgID, hfb]
    | some (Except.ok res), hfail2 => exact absurd rfl (hfail2 res)
  · intro hfb e hg
    rcases hgc : getClusterIDsFromAggregator fetch with ⟨ids, oe⟩
    rw [hgc] at hg
    simp only at hg
    subst hg
    match amsFail2, hfail2 with
    | none, _ => simp [readClustersForOrgID, hfb, hgc]
    | some (Except.error e2), _ => simp [readClustersForOrgID, hfb, hgc]
    | some (Except.ok res), hfail2 => exact absurd rfl (hfail2 res)
  · intro hfb hg
    rcases hgc : getClusterIDsFromAggregator fetch with ⟨ids, oe⟩
    rw [hgc] at hg
    simp only at hg
    subst hg
    match amsFail2, hfail2 with
    | none, _ => simp [readClustersForOrgID, hfb, hgc]
    | some (Except.error e2), _ => simp [readClustersForOrgID, hfb, hgc]
    | some (Except.ok res), hfail2 => exact absurd rfl (hfail2 res)

/-- C6 witness: with a failing membership-service call and the fallback
enabled, both resolvers return the aggregation-store path's result and
record that the fallback was queried. -/
theorem cluster_resolution_dispatch_witness :
    readClusterIDsForOrgID c5Cfg (some (Except.error ()))
        (ClusterListFetch.decoded ["a"] false)
      = (getClusterIDsFromAggregator (ClusterListFetch.decoded ["a"] false), true)
  ∧ readClustersForOrgID c5Cfg (some (Except.error ()))
        (ClusterListFetch.decoded ["a"] false)
      = (([{ id := "", displayName := "" }, { id := "a", displayName := "" }],
          [("a", "")], none), true) := by
  have h := cluster_resolution_dispatch c5Cfg (some (Except.error ()))
    (some (Except.error ())) (ClusterListFetch.decoded ["a"] false)
    (fun cs => by simp) (fun res => by simp)
  refine ⟨h.2.2.1 rfl, ?_⟩
  have h7 := h.2.2.2.2.2.2 rfl rfl
  simpa using h7

/-- C7: failure mapping of the proxy handler.  A transport-level
(url.Error) failure of the request to the target is translated to the
service-unavailable error named after the configured base endpoint that
was targeted (aggregator vs content), and every other failure — request
modifier, endpoint composition, non-transport send failure, or
response-write failure — is surfaced as an error response carrying the
original error (a generic internal error), so the handler always produces
exactly one response. -/
theorem proxy_failure_mapping (sc : ServicesConfig) (baseURL : String)
    (ce : Option ProxyError) (sr : Except ProxyError (Nat × String))
    (wr : Option ProxyError)
    (hne : sc.aggregatorBaseEndpoint ≠ sc.contentBaseEndpoint) :
    (proxyTo sc sc.aggregatorBaseEndpoint none none (Except.error ProxyError.urlError) wr
       = ProxyOutcome.errorResponse HandledError.aggregatorServiceUnavailable)
  ∧ (proxyTo sc sc.contentBaseEndpoint none none (Except.error ProxyError.urlError) wr
       = ProxyOutcome.errorResponse HandledError.contentServiceUnavailable)
  ∧ (∀ e, proxyTo sc baseURL (some e) ce sr wr
       = ProxyOutcome.errorResponse (HandledError.generic e))
  ∧ (∀ e, proxyTo sc baseURL none (some e) sr wr
       = ProxyOutcome.errorResponse (HandledError.generic e))
  ∧ (proxyTo sc baseURL none none (Except.error ProxyError.otherError) wr
       = ProxyOutcome.errorResponse (HandledError.generic ProxyError.otherError))
  ∧ (∀ st body e, proxyTo sc baseURL none none (Except.ok (st, body)) (some e)
       = ProxyOutcome.errorResponse (HandledError.generic e)) := by
  refine ⟨?_, ?_, fun e => rfl, fun e => rfl, rfl, fun st body e => rfl⟩
  · simp [proxyTo, evaluateProxyError]
  · simp [proxyTo, evaluateProxyError, Ne.symm hne]

/-- Concrete services configuration with distinct base endpoints. -/
def c7Sc : ServicesConfig :=
  { aggregatorBaseEndpoint := "http://aggregator:8080/api/v1/",
    contentBaseEndpoint := "http://content:8081/api/v1/" }

/-- C7 witness: a transport failure while proxying to the content base
endpoint is mapped to the content-service-unavailable error. -/
theorem proxy_failure_mapping_witness :
    proxyTo c7Sc c7Sc.contentBaseEndpoint none none
        (Except.error ProxyError.urlError) none
      = ProxyOutcome.errorResponse HandledError.contentServiceUnavailable :=
  (proxy_failure_mapping c7Sc "" none (Except.error ProxyError.urlError) none
    (by decide)).2.1

/-- C8: under the refresher's publish protocol the snapshot read always
returns (never blocks), with exactly the three outcomes: no refresh
completed yet gives the empty configuration and no error, a failed
refresh gives the stored error, and a successful refresh gives the
published configuration. -/
theorem groups_config_outcomes (ef : ChanState Bool) (ec : ChanState GroupsError)
    (gc : ChanState (Option (List Group)))
    (h : refresherPublished ef ec gc) :
    (getGroupsConfig ef ec gc).isSome = true
  ∧ (ef = ChanState.empty → getGroupsConfig ef ec gc = some ([], none))
  ∧ (∀ e, ef = ChanState.ready true → ec = ChanState.ready e →
      getGroupsConfig ef ec gc = some ([], some e))
  ∧ (∀ gs, ef = ChanState.ready false → gc = ChanState.ready (some gs) →
      getGroupsConfig ef ec gc = some (gs, none)) := by
  refine ⟨?_, ?_, ?_, ?_⟩
  · rcases h with he | ⟨e, hef, hec⟩ | ⟨gs, hef, hgc⟩
    · simp [getGroupsConfig, he]
    · subst hef; subst hec; simp [getGroupsConfig]
    · subst hef; subst hgc; simp [getGroupsConfig]
  · intro he
    simp [getGroupsConfig, he]
  · intro e hef hec
    subst hef; subst hec
    simp [getGroupsConfig]
  · intro gs hef hgc
    subst hef; subst hgc
    simp [getGroupsConfig]

/-- C8 witness: a published failed refresh is read back as the stored
error, without blocking, even while the groups channel is empty. -/
theorem groups_config_outcomes_witness :
    (getGroupsConfig (ChanState.ready true)
        (ChanState.ready GroupsError.contentServiceError) ChanState.empty).isSome = true
  ∧ getGroupsConfig (ChanState.ready true)
        (ChanState.ready GroupsError.contentServiceError) ChanState.empty
      = some ([], some GroupsError.contentServiceError) := by
  have h := groups_config_outcomes (ChanState.ready true)
    (ChanState.ready GroupsError.contentServiceError) ChanState.empty
    (Or.inr (Or.inl ⟨GroupsError.contentServiceError, rfl, rfl⟩))
  exact ⟨h.1, h.2.2.1 GroupsError.contentServiceError rfl rfl⟩

/-- C10: whenever the aggregator report fetch for a cluster is
unsuccessful (transport failure, body-read failure, non-OK upstream
status, or decode failure), getOverviewPerCluster returns (none, none) —
exactly the result it returns for a cluster whose report has zero hits —
so the cluster is silently excluded from the overview. -/
theorem overview_failure_is_silent (lookup : String → String → ContentLookupResult)
    (fetch : AggregatorReportFetch)
    (h : ∀ r : ReportResponse, fetch ≠ AggregatorReportFetch.response 200 (some r)) :
    getOverviewPerCluster lookup fetch = (none, none)
  ∧ ∀ rep : List RuleOnReport,
      getOverviewPerCluster lookup
          (AggregatorReportFetch.response 200 (some { metaCount := 0, report := rep }))
        = (none, none) := by
  constructor
  · cases fetch with
    | transportURLError => rfl
    | transportOtherError => rfl
    | bodyReadError => rfl
    | response statusCode decoded =>
      by_cases hs : statusCode = 200
      · subst hs
        cases decoded with
        | none => rfl
        | some r => exact absurd rfl (h r)
      · simp [getOverviewPerCluster, readAggregatorReportForClusterID, hs]
  · intro rep
    rfl

/-- Content lookup with no entries, used for the overview witness. -/
def c10Lookup : String → String → ContentLookupResult := fun _ _ =>
  ContentLookupResult.notFound

/-- C10 witness: a transport failure and a zero-hit report both yield
(none, none) from getOverviewPerCluster. -/
theorem overview_failure_is_silent_witness :
    getOverviewPerCluster c10Lookup AggregatorReportFetch.transportURLError = (none, none)
  ∧ getOverviewPerCluster c10Lookup
        (AggregatorReportFetch.response 200 (some { metaCount := 0, report := [] }))
      = (none, none) := by
  have h := overview_failure_is_silent c10Lookup AggregatorReportFetch.transportURLError
    (fun r hr => by cases hr)
  exact ⟨h.1, h.2 []⟩

end SmartProxy
